import Mathlib

/-!
Verification of the Auth0-protected PCO MCP gateway (src/services.py).

The development shallowly embeds the authentication gateway: the JWKS key
cache (PyJWT PyJWKClient, as used by Auth0Middleware._get_signing_key), JWT
verification (jwt.decode with algorithms RS256, audience, issuer), the
request middleware Auth0Middleware.dispatch, and the route composition
performed by create_app over Starlette mounts.  Cryptographic signatures are
abstracted: a signature is a string determined by the key material and the
signed header/payload, and verification checks equality.  Network fetches of
the JWK set are modelled by an explicit provider key list plus a fetch
counter; time is an explicit natural-number parameter.
-/

namespace PcoMcp

/-- Python str.startswith: code-point-wise prefix test (kept structurally
recursive so concrete instances evaluate in the kernel). -/
def strStartsWith (s pre : String) : Bool :=
  pre.toList.isPrefixOf s.toList

/-- Python slicing s[n:]: drop the first n code points. -/
def strDrop (s : String) (n : Nat) : String :=
  String.mk (s.toList.drop n)

/-- Decoded JWT header: declared algorithm and key identifier. -/
structure JWTHeader where
  alg : String
  kid : String
deriving DecidableEq, Repr

/-- Decoded JWT payload: registered claims plus an open mapping of extra
provider-specific attributes.  Absent claims are representable. -/
structure JWTPayload where
  sub : String
  aud : Option (List String)
  iss : Option String
  exp : Option Int
  extra : List (String × String)
deriving DecidableEq, Repr

/-- A parsed JWT: header, payload and the (opaque) signature string. -/
structure JWTToken where
  header : JWTHeader
  payload : JWTPayload
  sig : String
deriving DecidableEq, Repr

/-- A JSON Web Key as served by the JWKS endpoint: key id, an optional
public-key-use tag, and the key material (standing for the RSA key pair). -/
structure PyJWK where
  key_id : String
  public_key_use : Option String
  material : String
deriving DecidableEq, Repr

/-- Serialisation of a header used as signing input (abstraction of the
base64url-encoded JOSE header). -/
def encodeHeader (h : JWTHeader) : String :=
  "alg:" ++ h.alg ++ ";kid:" ++ h.kid

/-- Serialisation of a payload used as signing input (abstraction of the
base64url-encoded claims set). -/
def encodePayload (p : JWTPayload) : String :=
  "sub:" ++ p.sub
    ++ ";aud:" ++ (match p.aud with
        | none => "-" | some xs => String.intercalate "," xs)
    ++ ";iss:" ++ (match p.iss with | none => "-" | some i => i)
    ++ ";exp:" ++ (match p.exp with | none => "-" | some e => toString e)

/-- Abstract RS256 signature: fully determined by the key material and the
signed header.payload content.  Verification succeeds exactly when the token
signature equals this value for the resolved key. -/
def signToken (material : String) (h : JWTHeader) (p : JWTPayload) : String :=
  "RS256:" ++ material ++ ":" ++ encodeHeader h ++ "." ++ encodePayload p

/-- Model of the PyJWT exception taxonomy as raised during verification.
Every constructor except PyJWKClientError corresponds to a subclass of
jwt.InvalidTokenError; PyJWKClientError subclasses only jwt.PyJWTError. -/
inductive JwtError where
  | DecodeError
  | InvalidSignatureError
  | InvalidAlgorithmError
  | ExpiredSignatureError
  | InvalidAudienceError
  | InvalidIssuerError
  | MissingRequiredClaimError (claim : String)
  | PyJWKClientError (msg : String)
deriving DecidableEq, Repr

/-- Whether the exception is an instance of jwt.InvalidTokenError (and hence
caught by the second except clause of Auth0Middleware.dispatch).
PyJWKClientError is a PyJWTError but not an InvalidTokenError. -/
def JwtError.isInvalidTokenError : JwtError → Bool
  | .PyJWKClientError _ => false
  | _ => true

/-- Human-readable message of the exception, as interpolated into the
warning log line of dispatch. -/
def JwtError.describe : JwtError → String
  | .DecodeError => "Invalid token"
  | .InvalidSignatureError => "Signature verification failed"
  | .InvalidAlgorithmError => "The specified alg value is not allowed"
  | .ExpiredSignatureError => "Signature has expired"
  | .InvalidAudienceError => "Audience mismatch"
  | .InvalidIssuerError => "Invalid issuer"
  | .MissingRequiredClaimError c => "Token is missing the " ++ c ++ " claim"
  | .PyJWKClientError m => m

/-! ## Key Set Cache (PyJWT PyJWKClient with its JWKSetCache)

Modelled from PyJWT (library dependency of src/services.py line 56):
PyJWKClient caches the fetched JWK set with a lifespan of 300 seconds by
default; get_signing_key retries once with a forced refresh when the key id
is not found, then raises PyJWKClientError. -/

/-- PyJWT JWKSetCache: cached set, fetch timestamp, and lifespan. -/
structure JWKSetCache where
  jwk_set : Option (List PyJWK)
  timestamp : Option Nat
  lifespan : Int
deriving DecidableEq, Repr

/-- JWKSetCache.is_expired: the cache is expired when a lifespan is
configured and more than lifespan seconds have passed since the fetch. -/
def JWKSetCache.is_expired (c : JWKSetCache) (now : Nat) : Bool :=
  match c.timestamp with
  | none => false
  | some t => c.lifespan > -1 && (now : Int) > (t : Int) + c.lifespan

/-- JWKSetCache.get: the cached set, unless absent or expired. -/
def JWKSetCache.get (c : JWKSetCache) (now : Nat) : Option (List PyJWK) :=
  match c.jwk_set with
  | none => none
  | some s => if c.is_expired now then none else some s

/-- JWKSetCache.put: store a freshly fetched set with its timestamp. -/
def JWKSetCache.put (c : JWKSetCache) (s : List PyJWK) (now : Nat) : JWKSetCache :=
  { c with jwk_set := some s, timestamp := some now }

/-- PyJWKClient state: just its JWK set cache (the URI is fixed). -/
structure PyJWKClient where
  jwk_set_cache : JWKSetCache
deriving DecidableEq, Repr

/-- A freshly constructed PyJWKClient (cache_jwk_set true, lifespan 300). -/
def PyJWKClient.new : PyJWKClient :=
  { jwk_set_cache := { jwk_set := none, timestamp := none, lifespan := 300 } }

/-- PyJWKClient.get_jwk_set: serve from the cache unless refreshing, absent
or expired; on a fetch, store the published set of the provider and count one
network round trip.  Returns (set, updated client, fetch count). -/
def PyJWKClient.get_jwk_set (c : PyJWKClient) (provider : List PyJWK)
    (now : Nat) (refresh : Bool) : List PyJWK × PyJWKClient × Nat :=
  let cached := if refresh then none else c.jwk_set_cache.get now
  match cached with
  | some s => (s, c, 0)
  | none => (provider, { c with jwk_set_cache := c.jwk_set_cache.put provider now }, 1)

/-- The signing keys of a JWK set: use is sig or unspecified, key id
nonempty. -/
def signingKeys (s : List PyJWK) : List PyJWK :=
  s.filter (fun k => (k.public_key_use == some "sig" || k.public_key_use == none)
    && k.key_id != "")

/-- PyJWKClient.get_signing_keys: the filtered set, raising
PyJWKClientError when it contains no signing key. -/
def PyJWKClient.get_signing_keys (c : PyJWKClient) (provider : List PyJWK)
    (now : Nat) (refresh : Bool) :
    Except JwtError (List PyJWK) × PyJWKClient × Nat :=
  let r := c.get_jwk_set provider now refresh
  let ks := signingKeys r.1
  if ks.isEmpty then
    (.error (.PyJWKClientError "The JWKS endpoint did not contain any signing keys"),
      r.2.1, r.2.2)
  else (.ok ks, r.2.1, r.2.2)

/-- PyJWKClient.match_kid: first key whose id equals the requested one. -/
def match_kid (ks : List PyJWK) (kid : String) : Option PyJWK :=
  ks.find? (fun k => k.key_id == kid)

/-- PyJWKClient.get_signing_key: look the key id up in the (possibly cached)
set; on a miss, refresh the set once and retry; raise PyJWKClientError when
still not found. -/
def PyJWKClient.get_signing_key (c : PyJWKClient) (provider : List PyJWK)
    (now : Nat) (kid : String) : Except JwtError PyJWK × PyJWKClient × Nat :=
  match c.get_signing_keys provider now false with
  | (.error e, c1, n) => (.error e, c1, n)
  | (.ok ks, c1, n) =>
    match match_kid ks kid with
    | some k => (.ok k, c1, n)
    | none =>
      match c1.get_signing_keys provider now true with
      | (.error e, c2, m) => (.error e, c2, n + m)
      | (.ok ks2, c2, m) =>
        match match_kid ks2 kid with
        | some k => (.ok k, c2, n + m)
        | none =>
          (.error (.PyJWKClientError
            ("Unable to find a signing key that matches: " ++ kid)),
            c2, n + m)

/-- PyJWKClient.get_signing_key_from_jwt: parse the token (unverified) to
read its header key id, then resolve that key id.  A token that fails to
parse raises DecodeError (an InvalidTokenError). -/
def PyJWKClient.get_signing_key_from_jwt (c : PyJWKClient)
    (provider : List PyJWK) (now : Nat) (tok : Option JWTToken) :
    Except JwtError PyJWK × PyJWKClient × Nat :=
  match tok with
  | none => (.error .DecodeError, c, 0)
  | some t => c.get_signing_key provider now t.header.kid

/-! ## Token verification (jwt.decode) -/

/-- PyJWT exp validation: rejects when the exp claim is not in the future
(absent exp is not checked). -/
def validateExp (p : JWTPayload) (now : Nat) : Except JwtError Unit :=
  match p.exp with
  | none => .ok ()
  | some e => if e ≤ (now : Int) then .error .ExpiredSignatureError else .ok ()

/-- PyJWT iss validation against a required issuer: the claim must be
present and equal the expected issuer exactly. -/
def validateIss (p : JWTPayload) (issuer : String) : Except JwtError Unit :=
  match p.iss with
  | none => .error (.MissingRequiredClaimError "iss")
  | some i => if i = issuer then .ok () else .error .InvalidIssuerError

/-- PyJWT aud validation against a required audience: the claim must be
present and contain the expected audience. -/
def validateAud (p : JWTPayload) (audience : String) : Except JwtError Unit :=
  match p.aud with
  | none => .error (.MissingRequiredClaimError "aud")
  | some xs => if audience ∈ xs then .ok () else .error .InvalidAudienceError

/-- Model of jwt.decode(token, key, algorithms, audience, issuer): parse
(DecodeError when malformed), check the declared algorithm against the
allow-list (InvalidAlgorithmError), verify the signature against the
resolved key (InvalidSignatureError), then validate exp, iss and aud in
the PyJWT claim order.  On success, the decoded payload. -/
def jwtDecode (tok : Option JWTToken) (key : PyJWK) (algorithms : List String)
    (audience issuer : String) (now : Nat) : Except JwtError JWTPayload :=
  match tok with
  | none => .error .DecodeError
  | some t =>
    if ¬ algorithms.contains t.header.alg then .error .InvalidAlgorithmError
    else if t.sig ≠ signToken key.material t.header t.payload then
      .error .InvalidSignatureError
    else
      match validateExp t.payload now with
      | .error e => .error e
      | .ok _ =>
        match validateIss t.payload issuer with
        | .error e => .error e
        | .ok _ =>
          match validateAud t.payload audience with
          | .error e => .error e
          | .ok _ => .ok t.payload

/-- The expected issuer derived from the configured domain, as in
Auth0Middleware.dispatch. -/
def issuerOf (domain : String) : String := "https://" ++ domain ++ "/"

/-- The verification outcome of the Token Verifier of the spec: either the
authenticated claims or a rejection carrying the failure. -/
inductive AuthOutcome where
  | Authenticated (claims : JWTPayload)
  | Rejected (e : JwtError)
deriving DecidableEq, Repr

/-- The Token Verifier: resolve the signing key for the key id of the token,
then run jwt.decode with RS256 only and the expected audience/issuer.
Returns the outcome with the updated key cache and fetch count. -/
def tokenVerify (client : Option PyJWKClient) (provider : List PyJWK)
    (now : Nat) (tok : Option JWTToken) (audience issuer : String) :
    AuthOutcome × PyJWKClient × Nat :=
  let c := client.getD PyJWKClient.new
  match c.get_signing_key_from_jwt provider now tok with
  | (.error e, c1, n) => (.Rejected e, c1, n)
  | (.ok k, c1, n) =>
    match jwtDecode tok k ["RS256"] audience issuer now with
    | .error e => (.Rejected e, c1, n)
    | .ok p => (.Authenticated p, c1, n)

/-! ## Auth Enforcement Layer (Auth0Middleware.dispatch) -/

/-- An inbound HTTP request: method, optional Authorization header value,
and path (relative to the outer application). -/
structure Request where
  method : String
  authorization : Option String
  path : String
deriving DecidableEq, Repr

/-- An HTTP response: status, JSON-object body as a key/value list, and
response headers. -/
structure HttpResponse where
  status : Nat
  body : List (String × String)
  headers : List (String × String)
deriving DecidableEq, Repr

/-- The 401 returned when the Authorization header is missing or not
Bearer-prefixed. -/
def invalidRequestResponse (audience : String) : HttpResponse :=
  { status := 401
    body := [("error", "invalid_request"),
             ("error_description", "Missing or invalid Authorization header")]
    headers := [("WWW-Authenticate", "Bearer realm=\"" ++ audience ++ "\"")] }

/-- The WWW-Authenticate header value sent with token-failure responses. -/
def wwwAuthInvalidToken (audience : String) : String :=
  "Bearer realm=\"" ++ audience ++ "\", error=\"invalid_token\""

/-- The 401 returned on jwt.ExpiredSignatureError. -/
def expiredResponse (audience : String) : HttpResponse :=
  { status := 401
    body := [("error", "invalid_token"), ("error_description", "Token has expired")]
    headers := [("WWW-Authenticate", wwwAuthInvalidToken audience)] }

/-- The deliberately generic 401 returned on any other
jwt.InvalidTokenError. -/
def genericTokenResponse (audience : String) : HttpResponse :=
  { status := 401
    body := [("error", "invalid_token"), ("error_description", "Token validation failed")]
    headers := [("WWW-Authenticate", wwwAuthInvalidToken audience)] }

/-- Constructor arguments of Auth0Middleware: the Auth0 domain and the
expected audience. -/
structure Auth0Middleware where
  domain : String
  audience : String
deriving DecidableEq, Repr

/-- What Auth0Middleware.dispatch did with the request: returned a response
of its own, forwarded the request (with the user payload attached to
request.state when authentication ran), or let an exception escape. -/
inductive Outcome where
  | response (r : HttpResponse)
  | forwarded (req : Request) (user : Option JWTPayload)
  | raised (e : JwtError)
deriving DecidableEq, Repr

/-- Result of one dispatch call: the outcome, warning-level log lines
emitted, the jwks_client state of the middleware afterwards, and how many JWKS
fetches were performed. -/
structure DispatchResult where
  outcome : Outcome
  warnings : List String
  client : Option PyJWKClient
  fetches : Nat
deriving DecidableEq, Repr

/-- Auth0Middleware._get_signing_key: lazily construct the PyJWKClient on
first use, then resolve the signing key from the header of the token. -/
def Auth0Middleware.get_signing_key (client : Option PyJWKClient)
    (provider : List PyJWK) (now : Nat) (tok : Option JWTToken) :
    Except JwtError PyJWK × PyJWKClient × Nat :=
  (client.getD PyJWKClient.new).get_signing_key_from_jwt provider now tok

/-- The except clauses of dispatch applied to an exception raised inside
its try block: ExpiredSignatureError and other InvalidTokenError instances
become 401 responses (the latter with a warning log line); any other
exception — in particular PyJWKClientError — escapes dispatch. -/
def dispatchExcept (mw : Auth0Middleware) (e : JwtError)
    (c1 : PyJWKClient) (n : Nat) : DispatchResult :=
  if e = .ExpiredSignatureError then
    { outcome := .response (expiredResponse mw.audience)
      warnings := [], client := some c1, fetches := n }
  else if e.isInvalidTokenError then
    { outcome := .response (genericTokenResponse mw.audience)
      warnings := ["Token validation failed: " ++ e.describe]
      client := some c1, fetches := n }
  else
    { outcome := .raised e, warnings := [], client := some c1, fetches := n }

/-- Auth0Middleware.dispatch.  The parse argument stands for JOSE parsing
of the bearer string (none models a token decode_complete rejects as
malformed); provider is the published key set of the identity provider and now
the current time. -/
def Auth0Middleware.dispatch (mw : Auth0Middleware)
    (client : Option PyJWKClient) (provider : List PyJWK) (now : Nat)
    (parse : String → Option JWTToken) (req : Request) : DispatchResult :=
  if req.method = "OPTIONS" then
    { outcome := .forwarded req none, warnings := [], client := client, fetches := 0 }
  else
    let auth_header := req.authorization.getD ""
    if ¬ strStartsWith auth_header "Bearer " then
      { outcome := .response (invalidRequestResponse mw.audience)
        warnings := [], client := client, fetches := 0 }
    else
      let tok := parse (strDrop auth_header 7)
      match Auth0Middleware.get_signing_key client provider now tok with
      | (.error e, c1, n) => dispatchExcept mw e c1 n
      | (.ok signing_key, c1, n) =>
        match jwtDecode tok signing_key ["RS256"] mw.audience (issuerOf mw.domain) now with
        | .error e => dispatchExcept mw e c1 n
        | .ok payload =>
          { outcome := .forwarded req (some payload)
            warnings := [], client := some c1, fetches := n }

/-! ## Composition Root (create_app) and Starlette routing -/

/-- Configuration read from the environment at startup. -/
structure Config where
  auth0_domain : Option String
  auth0_audience : Option String
  base_url : Option String
deriving DecidableEq, Repr

/-- Python truthiness of an optional environment string: unset or empty is
falsy (the all([...]) check in create_app). -/
def truthy : Option String → Bool
  | none => false
  | some s => s.toList != []

/-- The application mounted at a path: the OAuth protected-resource
metadata router or the MCP tool-invocation app. -/
inductive MountedApp where
  | metadataRouter (resource : String) (authServers : List String)
      (scopes : List String) (resourceName : String)
  | mcpApp
deriving DecidableEq, Repr

/-- A Starlette Mount entry: path, mounted app, and the auth middleware
wrapped around it, when any. -/
structure MountSpec where
  path : String
  app : MountedApp
  auth : Option Auth0Middleware
deriving DecidableEq, Repr

/-- The composed application: its ordered mount list and the log lines
emitted while composing it. -/
structure App where
  routes : List MountSpec
  warnings : List String
  infos : List String
deriving DecidableEq, Repr

/-- create_app: with incomplete Auth0 configuration, mount only the MCP app
(no middleware) and log a warning; with full configuration, mount the
metadata router at the root and the MCP app at /mcp behind
Auth0Middleware. -/
def create_app (cfg : Config) : App :=
  if ¬ (truthy cfg.auth0_domain && truthy cfg.auth0_audience && truthy cfg.base_url) then
    { routes := [{ path := "/mcp", app := .mcpApp, auth := none }]
      warnings := ["Auth0 not configured - running without authentication"]
      infos := [] }
  else
    let domain := cfg.auth0_domain.getD ""
    let audience := cfg.auth0_audience.getD ""
    { routes :=
        [{ path := "/"
           app := .metadataRouter audience ["https://" ++ domain]
             ["openid", "profile", "email"] "PCO Services MCP Server"
           auth := none },
         { path := "/mcp", app := .mcpApp
           auth := some { domain := domain, audience := audience } }]
      warnings := []
      infos := ["Auth0 configured: domain=" ++ domain ++ ", audience=" ++ audience] }

/-- Strip trailing slashes, as Mount.__init__ does to its path. -/
def rstripSlash (s : String) : String :=
  String.mk ((s.toList.reverse.dropWhile (fun c => c = '/')).reverse)

/-- Starlette Mount matching: Mount(path) compiles the pattern
path.rstrip("/") + "/{path:path}", so it fully matches exactly the request
paths that extend the stripped path with a slash and anything after it. -/
def mountMatches (mountPath reqPath : String) : Bool :=
  strStartsWith reqPath (rstripSlash mountPath ++ "/")

/-- The path seen by the mounted app: the request path with the stripped
mount path removed. -/
def innerPath (mountPath reqPath : String) : String :=
  strDrop reqPath (rstripSlash mountPath).length

/-- The well-known path served by create_protected_resource_routes. -/
def wellKnownPath : String := "/.well-known/oauth-protected-resource"

/-- The plain Starlette 404 (body is the text Not Found, not modelled). -/
def notFoundResponse : HttpResponse :=
  { status := 404, body := [], headers := [] }

/-- The protected-resource metadata router: answers GET on the well-known
path with the metadata document, 404 otherwise.  The JSON lists are
flattened into the key/value body model. -/
def runMetadataRouter (resource : String) (authServers : List String)
    (scopes : List String) (resourceName : String) (req : Request)
    (path : String) : HttpResponse :=
  if path = wellKnownPath ∧ req.method = "GET" then
    { status := 200
      body := [("resource", resource),
               ("authorization_servers", String.intercalate "," authServers),
               ("scopes_supported", String.intercalate "," scopes),
               ("resource_name", resourceName)]
      headers := [] }
  else notFoundResponse

/-- How the composed application disposed of a request: a response from a
router or middleware, an invocation of the MCP tool surface (with the
claims attached to the request state, when any), an escaped exception, or
no matching mount. -/
inductive AppOutcome where
  | handled (r : HttpResponse)
  | toolInvocation (req : Request) (user : Option JWTPayload)
  | raised (e : JwtError)
  | noRoute
deriving DecidableEq, Repr

/-- Hand a request over to a mounted app (after any middleware ran). -/
def runMounted (m : MountSpec) (req : Request) (user : Option JWTPayload) :
    AppOutcome :=
  match m.app with
  | .metadataRouter res srv sc nm =>
    .handled (runMetadataRouter res srv sc nm req (innerPath m.path req.path))
  | .mcpApp => .toolInvocation req user

/-- Starlette Router dispatch over the composed app: the first fully
matching mount handles the request; its middleware (when present) may
short-circuit, raise, or forward into the mounted app. -/
def routeApp (app : App) (client : Option PyJWKClient)
    (provider : List PyJWK) (now : Nat)
    (parse : String → Option JWTToken) (req : Request) : AppOutcome :=
  match app.routes.find? (fun m => mountMatches m.path req.path) with
  | none => .noRoute
  | some m =>
    match m.auth with
    | none => runMounted m req none
    | some mw =>
      match (mw.dispatch client provider now parse req).outcome with
      | .response r => .handled r
      | .raised e => .raised e
      | .forwarded req1 user => runMounted m req1 user

/-! ## Concrete fixtures used by witnesses and counterexamples -/

/-- The sole published signing key of the provider. -/
def kEx : PyJWK := { key_id := "k1", public_key_use := some "sig", material := "m1" }

/-- Middleware configured for domain idp.test and audience svc. -/
def mwEx : Auth0Middleware := { domain := "idp.test", audience := "svc" }

def hEx : JWTHeader := { alg := "RS256", kid := "k1" }

def pEx : JWTPayload :=
  { sub := "user1", aud := some ["svc"], iss := some "https://idp.test/"
    exp := some 100, extra := [] }

/-- A token correctly signed by kEx with valid claims for mwEx at time 0. -/
def tEx : JWTToken := { header := hEx, payload := pEx, sig := signToken "m1" hEx pEx }

/-- The client state after one fetch of the provider set [kEx] at time 0. -/
def cEx1 : PyJWKClient :=
  { jwk_set_cache := { jwk_set := some [kEx], timestamp := some 0, lifespan := 300 } }

def parseNone : String → Option JWTToken := fun _ => none

def parseEx : String → Option JWTToken := fun s => if s = "t1" then some tEx else none

def reqEx : Request := { method := "POST", authorization := some "Bearer t1", path := "/mcp/" }

def reqOptions : Request := { method := "OPTIONS", authorization := none, path := "/mcp/" }

def reqNoAuth : Request := { method := "POST", authorization := none, path := "/mcp/" }

/-- A token whose header names key id k9, absent from the provider set. -/
def tUk : JWTToken :=
  { header := { alg := "RS256", kid := "k9" }, payload := pEx, sig := "sig9" }

def parseUk : String → Option JWTToken := fun s => if s = "t9" then some tUk else none

def reqUk : Request := { method := "POST", authorization := some "Bearer t9", path := "/mcp/" }

/-- A second unknown-key-id token (key id k7). -/
def tUk2 : JWTToken :=
  { header := { alg := "RS256", kid := "k7" }, payload := pEx, sig := "sig7" }

def parseUk2 : String → Option JWTToken := fun s => if s = "t7" then some tUk2 else none

def reqUk2 : Request := { method := "POST", authorization := some "Bearer t7", path := "/mcp/" }

def pOld : JWTPayload := { pEx with exp := some (-5) }

/-- A correctly signed token whose exp claim lies in the past. -/
def tOld : JWTToken := { header := hEx, payload := pOld, sig := signToken "m1" hEx pOld }

def parseOld : String → Option JWTToken := fun s => if s = "t2" then some tOld else none

def reqOld : Request := { method := "POST", authorization := some "Bearer t2", path := "/mcp/" }

/-- A token declaring HS256 in its header. -/
def tAlg : JWTToken :=
  { header := { alg := "HS256", kid := "k1" }, payload := pEx, sig := "sigA" }

def pAudBad : JWTPayload := { pEx with aud := some ["other"] }

/-- A correctly signed, unexpired token whose audience does not contain svc. -/
def tAudBad : JWTToken :=
  { header := hEx, payload := pAudBad, sig := signToken "m1" hEx pAudBad }

def parseAudBad : String → Option JWTToken := fun s => if s = "t4" then some tAudBad else none

def reqAudBad : Request := { method := "POST", authorization := some "Bearer t4", path := "/mcp/" }

/-- Fully populated Auth0 configuration. -/
def cfgFull : Config :=
  { auth0_domain := some "idp.test", auth0_audience := some "svc"
    base_url := some "https://mcp.example" }

def reqWellKnown : Request :=
  { method := "GET", authorization := none, path := "/.well-known/oauth-protected-resource" }

/-- A configuration with the Auth0 domain unset. -/
def cfgOpen : Config :=
  { auth0_domain := none, auth0_audience := some "svc"
    base_url := some "https://mcp.example" }

/-! ## Helper lemmas -/

theorem strStartsWith_bearer (s : String) :
    strStartsWith ("Bearer " ++ s) "Bearer " = true := by
  cases s with
  | mk data =>
    show List.isPrefixOf "Bearer ".toList ("Bearer ".data ++ data) = true
    rw [List.isPrefixOf_iff_prefix]
    exact List.prefix_append "Bearer ".data data

theorem strDrop_bearer (s : String) : strDrop ("Bearer " ++ s) 7 = s := by
  cases s with
  | mk data =>
    show String.mk (("Bearer ".data ++ data).drop 7) = String.mk data
    have h7 : "Bearer ".data.length = 7 := rfl
    rw [← h7, List.drop_left]

theorem isPrefixOf_cons_false {c : Char} {cs l : List Char}
    (h : List.isPrefixOf [c] l = false) : List.isPrefixOf (c :: cs) l = false := by
  cases l with
  | nil => rfl
  | cons a as =>
    have hc : (c == a) = false := by
      by_contra hcc
      rw [Bool.not_eq_false] at hcc
      simp [List.isPrefixOf, hcc] at h
    simp [List.isPrefixOf, hc]

theorem find?_some_not_isEmpty {α : Type} {p : α → Bool} {l : List α} {a : α}
    (h : l.find? p = some a) : l.isEmpty = false := by
  cases l with
  | nil => simp [List.find?] at h
  | cons x xs => rfl

/-! ## Behaviour lemmas about dispatch and jwt.decode -/

theorem dispatchExcept_not_forwarded (mw : Auth0Middleware) (e : JwtError)
    (c1 : PyJWKClient) (n : Nat) (r : Request) (u : Option JWTPayload) :
    (dispatchExcept mw e c1 n).outcome ≠ .forwarded r u := by
  unfold dispatchExcept
  split
  · simp
  · split
    · simp
    · simp

theorem dispatchExcept_invalid (mw : Auth0Middleware) (e : JwtError)
    (c1 : PyJWKClient) (n : Nat) (h1 : e ≠ .ExpiredSignatureError)
    (h2 : e.isInvalidTokenError = true) :
    dispatchExcept mw e c1 n =
      { outcome := .response (genericTokenResponse mw.audience)
        warnings := ["Token validation failed: " ++ e.describe]
        client := some c1, fetches := n } := by
  unfold dispatchExcept
  rw [if_neg h1, if_pos h2]

/-- On a non-OPTIONS request with a Bearer header, dispatch behaves as the
Token Verifier followed by: forward with the claims attached on
Authenticated, the except clauses on Rejected. -/
theorem dispatch_char (mw : Auth0Middleware) (client : Option PyJWKClient)
    (provider : List PyJWK) (now : Nat) (parse : String → Option JWTToken)
    (req : Request) (hm : ¬ req.method = "OPTIONS")
    (hb : strStartsWith (req.authorization.getD "") "Bearer " = true) :
    mw.dispatch client provider now parse req =
      match tokenVerify client provider now
          (parse (strDrop (req.authorization.getD "") 7)) mw.audience (issuerOf mw.domain) with
      | (.Authenticated p, c1, n) =>
        { outcome := .forwarded req (some p), warnings := [], client := some c1, fetches := n }
      | (.Rejected e, c1, n) => dispatchExcept mw e c1 n := by
  simp only [Auth0Middleware.dispatch, tokenVerify, Auth0Middleware.get_signing_key]
  rw [if_neg hm, if_neg (not_not_intro hb)]
  set tk := parse (strDrop (req.authorization.getD "") 7) with htk
  rcases hr : (client.getD PyJWKClient.new).get_signing_key_from_jwt provider now tk
    with ⟨res, c1, n⟩
  cases res with
  | error e => rfl
  | ok k =>
    show (match jwtDecode tk k ["RS256"] mw.audience (issuerOf mw.domain) now with
        | .error e => dispatchExcept mw e c1 n
        | .ok payload =>
          { outcome := Outcome.forwarded req (some payload), warnings := []
            client := some c1, fetches := n }) =
      match (match jwtDecode tk k ["RS256"] mw.audience (issuerOf mw.domain) now with
          | .error e => (AuthOutcome.Rejected e, c1, n)
          | .ok p => (AuthOutcome.Authenticated p, c1, n)) with
        | (AuthOutcome.Authenticated p, c2, m) =>
          { outcome := Outcome.forwarded req (some p), warnings := []
            client := some c2, fetches := m }
        | (AuthOutcome.Rejected e, c2, m) => dispatchExcept mw e c2 m
    cases jwtDecode tk k ["RS256"] mw.audience (issuerOf mw.domain) now with
    | error e => rfl
    | ok p => rfl

theorem validateExp_ok (p : JWTPayload) (now : Nat)
    (hexp : ∀ e, p.exp = some e → (now : Int) < e) :
    validateExp p now = .ok () := by
  unfold validateExp
  cases he : p.exp with
  | none => rfl
  | some e => simp [not_le.mpr (hexp e he)]

/-- jwt.decode succeeds on an RS256 token with a valid signature, unexpired
exp, exact issuer and matching audience, returning the payload. -/
theorem jwtDecode_ok (tok : JWTToken) (k : PyJWK) (audience issuer : String) (now : Nat)
    (halg : tok.header.alg = "RS256")
    (hsig : tok.sig = signToken k.material tok.header tok.payload)
    (hexp : ∀ e, tok.payload.exp = some e → (now : Int) < e)
    (hiss : tok.payload.iss = some issuer)
    (haud : ∃ xs, tok.payload.aud = some xs ∧ audience ∈ xs) :
    jwtDecode (some tok) k ["RS256"] audience issuer now = .ok tok.payload := by
  obtain ⟨xs, ha1, ha2⟩ := haud
  have h1 : validateExp tok.payload now = .ok () := validateExp_ok tok.payload now hexp
  have h2 : validateIss tok.payload issuer = .ok () := by
    simp [validateIss, hiss]
  have h3 : validateAud tok.payload audience = .ok () := by
    simp [validateAud, ha1, ha2]
  simp only [jwtDecode]
  rw [halg, if_neg (not_not_intro (by decide)), if_neg (not_not_intro hsig), h1, h2, h3]

/-- jwt.decode rejects an RS256 token with a valid signature whose exp is
not in the future with ExpiredSignatureError, whatever its other claims. -/
theorem jwtDecode_expired (tok : JWTToken) (k : PyJWK) (audience issuer : String) (now : Nat)
    (halg : tok.header.alg = "RS256")
    (hsig : tok.sig = signToken k.material tok.header tok.payload)
    (hexp : ∃ e, tok.payload.exp = some e ∧ e ≤ (now : Int)) :
    jwtDecode (some tok) k ["RS256"] audience issuer now = .error .ExpiredSignatureError := by
  obtain ⟨e, he1, he2⟩ := hexp
  have h1 : validateExp tok.payload now = .error .ExpiredSignatureError := by
    simp [validateExp, he1, he2]
  simp only [jwtDecode]
  rw [halg, if_neg (not_not_intro (by decide)), if_neg (not_not_intro hsig), h1]

/-- Dispatch on a non-OPTIONS request without a Bearer-prefixed
Authorization header: immediate invalid_request 401, no state change. -/
theorem dispatch_no_bearer (mw : Auth0Middleware) (client : Option PyJWKClient)
    (provider : List PyJWK) (now : Nat) (parse : String → Option JWTToken)
    (req : Request) (hm : ¬ req.method = "OPTIONS")
    (hb : strStartsWith (req.authorization.getD "") "Bearer " = false) :
    mw.dispatch client provider now parse req =
      { outcome := .response (invalidRequestResponse mw.audience)
        warnings := [], client := client, fetches := 0 } := by
  simp only [Auth0Middleware.dispatch]
  rw [if_neg hm, if_pos (by simp [hb])]

/-! ## Claim theorems -/

/-- C6: for every non-OPTIONS request whose Authorization header is absent or
not prefixed with the case-sensitive single-space string Bearer, dispatch
immediately answers HTTP 401 with body error invalid_request and
error_description Missing or invalid Authorization header, plus the
WWW-Authenticate Bearer realm header; no token verification is attempted —
the result is independent of the provider key set, the time and the token
parser, performs zero fetches and leaves the client state untouched. -/
theorem c6_missing_auth_header_rejected (mw : Auth0Middleware)
    (client : Option PyJWKClient) (provider provider2 : List PyJWK)
    (now now2 : Nat) (parse parse2 : String → Option JWTToken) (req : Request)
    (hm : ¬ req.method = "OPTIONS")
    (hb : strStartsWith (req.authorization.getD "") "Bearer " = false) :
    mw.dispatch client provider now parse req =
      { outcome := .response
          { status := 401
            body := [("error", "invalid_request"),
                     ("error_description", "Missing or invalid Authorization header")]
            headers := [("WWW-Authenticate", "Bearer realm=\"" ++ mw.audience ++ "\"")] }
        warnings := [], client := client, fetches := 0 }
    ∧ mw.dispatch client provider now parse req
        = mw.dispatch client provider2 now2 parse2 req := by
  refine ⟨dispatch_no_bearer mw client provider now parse req hm hb, ?_⟩
  exact (dispatch_no_bearer mw client provider now parse req hm hb).trans
    (dispatch_no_bearer mw client provider2 now2 parse2 req hm hb).symm

/-- Witness for c6_missing_auth_header_rejected: a POST to the protected
path with no Authorization header at all. -/
theorem c6_missing_auth_header_rejected_witness :
    mwEx.dispatch none [kEx] 0 parseEx reqNoAuth =
      { outcome := .response
          { status := 401
            body := [("error", "invalid_request"),
                     ("error_description", "Missing or invalid Authorization header")]
            headers := [("WWW-Authenticate", "Bearer realm=\"svc\"")] }
        warnings := [], client := none, fetches := 0 }
    ∧ mwEx.dispatch none [kEx] 0 parseEx reqNoAuth
        = mwEx.dispatch none [] 99 parseNone reqNoAuth :=
  c6_missing_auth_header_rejected mwEx none [kEx] [] 0 99 parseEx parseNone reqNoAuth
    (by decide) (by decide)

/-- C2 (code bug): a request bearing a token whose key identifier k9 is
absent from the published key set makes dispatch raise PyJWKClientError,
which is not an InvalidTokenError and so is caught by neither except clause:
the verification failure escapes dispatch as an uncaught fault (a 500 at the
server) instead of a structured 401 InvalidToken rejection. -/
theorem c2_unknown_kid_escapes_dispatch :
    (mwEx.dispatch none [kEx] 0 parseUk reqUk).outcome
        = .raised (.PyJWKClientError "Unable to find a signing key that matches: k9")
    ∧ (∀ r : HttpResponse,
        (mwEx.dispatch none [kEx] 0 parseUk reqUk).outcome ≠ .response r)
    ∧ JwtError.isInvalidTokenError
        (.PyJWKClientError "Unable to find a signing key that matches: k9") = false := by
  refine ⟨rfl, ?_, rfl⟩
  intro r h
  have h0 : (mwEx.dispatch none [kEx] 0 parseUk reqUk).outcome
      = .raised (.PyJWKClientError "Unable to find a signing key that matches: k9") := rfl
  rw [h0] at h
  simp at h

/-- C10 counterexample: after resolving key id k1 at time 0 (one network
fetch), the cached set counts as expired at time 301 — the 300-second TTL
evicts it — so resolving the same key id again triggers a second fetch,
refuting that cached entries never expire proactively. -/
theorem c10_ttl_evicts_counterexample :
    (PyJWKClient.new.get_signing_key [kEx] 0 "k1").2.2 = 1
    ∧ (PyJWKClient.new.get_signing_key [kEx] 0 "k1").1 = .ok kEx
    ∧ (PyJWKClient.new.get_signing_key [kEx] 0 "k1").2.1 = cEx1
    ∧ cEx1.jwk_set_cache.is_expired 301 = true
    ∧ (cEx1.get_signing_key [kEx] 301 "k1").2.2 = 1 :=
  ⟨rfl, rfl, rfl, rfl, rfl⟩

/-- C10 (amended): resolving the same key identifier twice in sequence
within the cache lifespan of 300 seconds returns bit-identical key material
and triggers exactly one network fetch in total: the second call is served
from the cached set and leaves the client state unchanged.  Beyond the
lifespan the set is refetched (TTL expiry), as the counterexample shows. -/
theorem c10_resolve_idempotent_within_lifespan
    (provider : List PyJWK) (kid : String) (k : PyJWK) (now now2 : Nat)
    (hk : match_kid (signingKeys provider) kid = some k)
    (hseq : now ≤ now2) (hlife : (now2 : Int) ≤ (now : Int) + 300) :
    PyJWKClient.new.get_signing_key provider now kid =
      (.ok k,
        { jwk_set_cache :=
            { jwk_set := some provider, timestamp := some now, lifespan := 300 } }, 1)
    ∧ ({ jwk_set_cache :=
           { jwk_set := some provider, timestamp := some now, lifespan := 300 } }
         : PyJWKClient).get_signing_key provider now2 kid =
      (.ok k,
        { jwk_set_cache :=
            { jwk_set := some provider, timestamp := some now, lifespan := 300 } }, 0) := by
  have hne : (signingKeys provider).isEmpty = false := find?_some_not_isEmpty hk
  have h1 : PyJWKClient.new.get_jwk_set provider now false =
      (provider,
       { jwk_set_cache :=
           { jwk_set := some provider, timestamp := some now, lifespan := 300 } }, 1) := rfl
  have h2 : PyJWKClient.new.get_signing_keys provider now false =
      (.ok (signingKeys provider),
       { jwk_set_cache :=
           { jwk_set := some provider, timestamp := some now, lifespan := 300 } }, 1) := by
    unfold PyJWKClient.get_signing_keys
    rw [h1]
    simp [hne]
  have hnotexp :
      ({ jwk_set := some provider, timestamp := some now, lifespan := 300 }
        : JWKSetCache).is_expired now2 = false := by
    have hgt : ¬ ((now2 : Int) > (now : Int) + 300) := by omega
    simp [JWKSetCache.is_expired, hgt]
  have h3 : ({ jwk_set_cache :=
        { jwk_set := some provider, timestamp := some now, lifespan := 300 } }
        : PyJWKClient).get_jwk_set provider now2 false =
      (provider,
       { jwk_set_cache :=
           { jwk_set := some provider, timestamp := some now, lifespan := 300 } }, 0) := by
    unfold PyJWKClient.get_jwk_set JWKSetCache.get
    simp [hnotexp]
  have h4 : ({ jwk_set_cache :=
        { jwk_set := some provider, timestamp := some now, lifespan := 300 } }
        : PyJWKClient).get_signing_keys provider now2 false =
      (.ok (signingKeys provider),
       { jwk_set_cache :=
           { jwk_set := some provider, timestamp := some now, lifespan := 300 } }, 0) := by
    unfold PyJWKClient.get_signing_keys
    rw [h3]
    simp [hne]
  constructor
  · unfold PyJWKClient.get_signing_key
    rw [h2]
    simp [hk]
  · unfold PyJWKClient.get_signing_key
    rw [h4]
    simp [hk]

/-- Witness for c10_resolve_idempotent_within_lifespan: two resolves of k1
at times 0 and 5 against the singleton provider set. -/
theorem c10_resolve_idempotent_within_lifespan_witness :
    PyJWKClient.new.get_signing_key [kEx] 0 "k1" = (.ok kEx, cEx1, 1)
    ∧ cEx1.get_signing_key [kEx] 5 "k1" = (.ok kEx, cEx1, 0) :=
  c10_resolve_idempotent_within_lifespan [kEx] "k1" kEx 0 5 (by decide) (by decide)
    (by decide)

/-- C3: for every non-OPTIONS request bearing a token that the key cache
resolves to a key, whose RS256 signature verifies under that resolved key,
whose aud claim contains the expected audience, whose iss claim equals the
expected issuer exactly, and whose exp is in the future, verification
succeeds: the claims attached to the request state are exactly the token
payload (so their sub equals the sub of the token payload) and the request
is forwarded unchanged to the wrapped tool app. -/
theorem c3_valid_token_forwarded (mw : Auth0Middleware) (client : Option PyJWKClient)
    (provider : List PyJWK) (now : Nat) (parse : String → Option JWTToken)
    (req : Request) (s : String) (tok : JWTToken) (k : PyJWK)
    (c1 : PyJWKClient) (n : Nat)
    (hm : ¬ req.method = "OPTIONS")
    (hauth : req.authorization = some ("Bearer " ++ s))
    (hparse : parse s = some tok)
    (hres : (client.getD PyJWKClient.new).get_signing_key_from_jwt provider now (some tok)
        = (.ok k, c1, n))
    (halg : tok.header.alg = "RS256")
    (hsig : tok.sig = signToken k.material tok.header tok.payload)
    (hexp : ∀ e, tok.payload.exp = some e → (now : Int) < e)
    (hiss : tok.payload.iss = some (issuerOf mw.domain))
    (haud : ∃ xs, tok.payload.aud = some xs ∧ mw.audience ∈ xs) :
    ∃ claims, mw.dispatch client provider now parse req =
      { outcome := .forwarded req (some claims), warnings := []
        client := some c1, fetches := n }
    ∧ claims.sub = tok.payload.sub := by
  have hb : strStartsWith (req.authorization.getD "") "Bearer " = true := by
    rw [hauth]
    exact strStartsWith_bearer s
  have htk : parse (strDrop (req.authorization.getD "") 7) = some tok := by
    rw [hauth]
    show parse (strDrop ("Bearer " ++ s) 7) = some tok
    rw [strDrop_bearer]
    exact hparse
  have hdec := jwtDecode_ok tok k mw.audience (issuerOf mw.domain) now halg hsig hexp hiss haud
  have hverify : tokenVerify client provider now (some tok) mw.audience (issuerOf mw.domain)
      = (.Authenticated tok.payload, c1, n) := by
    simp [tokenVerify, hres, hdec]
  have hd := dispatch_char mw client provider now parse req hm hb
  rw [htk, hverify] at hd
  exact ⟨tok.payload, hd.trans rfl, rfl⟩

/-- Witness for c3_valid_token_forwarded: the correctly signed token tEx for
audience svc and issuer idp.test, verified at time 0. -/
theorem c3_valid_token_forwarded_witness :
    ∃ claims, mwEx.dispatch none [kEx] 0 parseEx reqEx =
      { outcome := .forwarded reqEx (some claims), warnings := []
        client := some cEx1, fetches := 1 }
    ∧ claims.sub = tEx.payload.sub :=
  c3_valid_token_forwarded mwEx none [kEx] 0 parseEx reqEx "t1" tEx kEx cEx1 1
    (by decide) (by decide) (by decide) rfl rfl rfl
    (by
      intro e he
      have h2 : some (100 : Int) = some e := he
      injection h2 with h3
      omega)
    rfl ⟨["svc"], rfl, by decide⟩

/-- C5: every request carrying a token whose RS256 signature verifies under
the resolved key but whose exp claim is in the past is answered HTTP 401
with body error invalid_token and error_description Token has expired, and
header WWW-Authenticate: Bearer realm with the audience and
error="invalid_token". -/
theorem c5_expired_token_response (mw : Auth0Middleware) (client : Option PyJWKClient)
    (provider : List PyJWK) (now : Nat) (parse : String → Option JWTToken)
    (req : Request) (s : String) (tok : JWTToken) (k : PyJWK)
    (c1 : PyJWKClient) (n : Nat)
    (hm : ¬ req.method = "OPTIONS")
    (hauth : req.authorization = some ("Bearer " ++ s))
    (hparse : parse s = some tok)
    (hres : (client.getD PyJWKClient.new).get_signing_key_from_jwt provider now (some tok)
        = (.ok k, c1, n))
    (halg : tok.header.alg = "RS256")
    (hsig : tok.sig = signToken k.material tok.header tok.payload)
    (hexp : ∃ e, tok.payload.exp = some e ∧ e < (now : Int)) :
    mw.dispatch client provider now parse req =
      { outcome := .response
          { status := 401
            body := [("error", "invalid_token"),
                     ("error_description", "Token has expired")]
            headers := [("WWW-Authenticate",
              "Bearer realm=\"" ++ mw.audience ++ "\", error=\"invalid_token\"")] }
        warnings := [], client := some c1, fetches := n } := by
  have hb : strStartsWith (req.authorization.getD "") "Bearer " = true := by
    rw [hauth]
    exact strStartsWith_bearer s
  have htk : parse (strDrop (req.authorization.getD "") 7) = some tok := by
    rw [hauth]
    show parse (strDrop ("Bearer " ++ s) 7) = some tok
    rw [strDrop_bearer]
    exact hparse
  have hexp2 : ∃ e, tok.payload.exp = some e ∧ e ≤ (now : Int) := by
    obtain ⟨e, he1, he2⟩ := hexp
    exact ⟨e, he1, le_of_lt he2⟩
  have hdec := jwtDecode_expired tok k mw.audience (issuerOf mw.domain) now halg hsig hexp2
  have hverify : tokenVerify client provider now (some tok) mw.audience (issuerOf mw.domain)
      = (.Rejected .ExpiredSignatureError, c1, n) := by
    simp [tokenVerify, hres, hdec]
  have hd := dispatch_char mw client provider now parse req hm hb
  rw [htk, hverify] at hd
  exact hd.trans rfl

/-- Witness for c5_expired_token_response: the correctly signed token tOld
with exp equal to -5, dispatched at time 0. -/
theorem c5_expired_token_response_witness :
    mwEx.dispatch none [kEx] 0 parseOld reqOld =
      { outcome := .response
          { status := 401
            body := [("error", "invalid_token"),
                     ("error_description", "Token has expired")]
            headers := [("WWW-Authenticate",
              "Bearer realm=\"svc\", error=\"invalid_token\"")] }
        warnings := [], client := some cEx1, fetches := 1 } :=
  c5_expired_token_response mwEx none [kEx] 0 parseOld reqOld "t2" tOld kEx cEx1 1
    (by decide) (by decide) (by decide) rfl rfl rfl ⟨-5, rfl, by decide⟩

/-- C4: signature verification accepts RS256 only: jwt.decode rejects every
token declaring any other algorithm with InvalidAlgorithmError, an
InvalidTokenError that dispatch maps to the 401 invalid_token response; and
the Token Verifier never returns Authenticated for such a token, whatever
the key set, cache state, audience, issuer or time. -/
theorem c4_rs256_only (t : JWTToken) (halg : ¬ t.header.alg = "RS256") :
    (∀ (k : PyJWK) (audience issuer : String) (now : Nat),
        jwtDecode (some t) k ["RS256"] audience issuer now
          = .error .InvalidAlgorithmError)
    ∧ JwtError.InvalidAlgorithmError.isInvalidTokenError = true
    ∧ (∀ (client : Option PyJWKClient) (provider : List PyJWK) (now : Nat)
        (audience issuer : String) (p : JWTPayload) (c1 : PyJWKClient) (n : Nat),
        tokenVerify client provider now (some t) audience issuer
          ≠ (.Authenticated p, c1, n)) := by
  have hdec : ∀ (k : PyJWK) (audience issuer : String) (now : Nat),
      jwtDecode (some t) k ["RS256"] audience issuer now
        = .error .InvalidAlgorithmError := by
    intro k audience issuer now
    simp only [jwtDecode]
    rw [if_pos (by simp [halg])]
  refine ⟨hdec, rfl, ?_⟩
  intro client provider now audience issuer p c1 n h
  simp only [tokenVerify] at h
  rcases hgs : (client.getD PyJWKClient.new).get_signing_key_from_jwt provider now (some t)
    with ⟨res, c2, m⟩
  rw [hgs] at h
  cases res with
  | error e => simp at h
  | ok k =>
    have h2 : (match jwtDecode (some t) k ["RS256"] audience issuer now with
        | .error e => (AuthOutcome.Rejected e, c2, m)
        | .ok q => (AuthOutcome.Authenticated q, c2, m))
        = ((AuthOutcome.Authenticated p, c1, n) :
            AuthOutcome × PyJWKClient × Nat) := h
    rw [hdec k audience issuer now] at h2
    simp at h2

/-- Witness for c4_rs256_only: the HS256-declaring token tAlg is rejected by
jwt.decode with InvalidAlgorithmError. -/
theorem c4_rs256_only_witness :
    jwtDecode (some tAlg) kEx ["RS256"] "svc" "https://idp.test/" 0
      = .error .InvalidAlgorithmError :=
  (c4_rs256_only tAlg (by decide)).1 kEx "svc" "https://idp.test/" 0

/-- C1 counterexample: an OPTIONS request with no Authorization header is
forwarded by dispatch to the wrapped tool app although no Authenticated
outcome was produced — the claims attached to the forwarded request are
absent, so the stated iff fails on OPTIONS preflight requests. -/
theorem c1_options_forwarded_without_claims :
    (mwEx.dispatch none [kEx] 0 parseEx reqOptions).outcome = .forwarded reqOptions none
    ∧ ∀ p : JWTPayload,
        (mwEx.dispatch none [kEx] 0 parseEx reqOptions).outcome
          ≠ .forwarded reqOptions (some p) := by
  refine ⟨rfl, ?_⟩
  intro p h
  have h0 : (mwEx.dispatch none [kEx] 0 parseEx reqOptions).outcome
      = .forwarded reqOptions none := rfl
  rw [h0] at h
  simp at h

/-- C1 (amended): when authentication is configured, a non-OPTIONS request
passes dispatch to tool invocation iff the Token Verifier produced
Authenticated for its bearer token: every forwarded request is the original
request carrying exactly the authenticated claims, and every Authenticated
verification leads to forwarding.  (OPTIONS preflight requests are exempted
unconditionally and forwarded without claims.) -/
theorem c1_forward_iff_authenticated (mw : Auth0Middleware)
    (client : Option PyJWKClient) (provider : List PyJWK) (now : Nat)
    (parse : String → Option JWTToken) (req : Request)
    (hm : ¬ req.method = "OPTIONS") :
    (∀ r u, (mw.dispatch client provider now parse req).outcome = .forwarded r u →
      r = req ∧ strStartsWith (req.authorization.getD "") "Bearer " = true ∧
      ∃ p c1 n, u = some p ∧
        tokenVerify client provider now (parse (strDrop (req.authorization.getD "") 7))
          mw.audience (issuerOf mw.domain) = (.Authenticated p, c1, n))
    ∧ (∀ p c1 n,
        strStartsWith (req.authorization.getD "") "Bearer " = true →
        tokenVerify client provider now (parse (strDrop (req.authorization.getD "") 7))
          mw.audience (issuerOf mw.domain) = (.Authenticated p, c1, n) →
        (mw.dispatch client provider now parse req).outcome = .forwarded req (some p)) := by
  constructor
  · intro r u h
    cases hb : strStartsWith (req.authorization.getD "") "Bearer " with
    | false =>
      rw [dispatch_no_bearer mw client provider now parse req hm hb] at h
      simp at h
    | true =>
      rw [dispatch_char mw client provider now parse req hm hb] at h
      rcases hv : tokenVerify client provider now
          (parse (strDrop (req.authorization.getD "") 7)) mw.audience (issuerOf mw.domain)
        with ⟨o, c1, n⟩
      rw [hv] at h
      cases o with
      | Authenticated p =>
        have h2 : Outcome.forwarded req (some p) = Outcome.forwarded r u := h
        injection h2 with hr hu
        exact ⟨hr.symm, rfl, p, c1, n, hu.symm, rfl⟩
      | Rejected e =>
        exact absurd h (dispatchExcept_not_forwarded mw e c1 n r u)
  · intro p c1 n hb hv
    rw [dispatch_char mw client provider now parse req hm hb, hv]

/-- Witness for c1_forward_iff_authenticated: the valid token tEx leads
dispatch to forward reqEx with the claims pEx attached. -/
theorem c1_forward_iff_authenticated_witness :
    (mwEx.dispatch none [kEx] 0 parseEx reqEx).outcome = .forwarded reqEx (some pEx) :=
  (c1_forward_iff_authenticated mwEx none [kEx] 0 parseEx reqEx (by decide)).2
    pEx cEx1 1 (by decide) (by decide)

/-- C7 counterexample: a key-not-found rejection (token key id k7 absent
from the key set) does not produce the generic 401 invalid_token body as
claimed — the PyJWKClientError escapes dispatch uncaught, so no response at
all is returned for that rejection kind. -/
theorem c7_keynotfound_not_generic :
    (mwEx.dispatch none [kEx] 0 parseUk2 reqUk2).outcome
        = .raised (.PyJWKClientError "Unable to find a signing key that matches: k7")
    ∧ (mwEx.dispatch none [kEx] 0 parseUk2 reqUk2).outcome
        ≠ .response (genericTokenResponse "svc") := by
  refine ⟨rfl, ?_⟩
  intro h
  have h0 : (mwEx.dispatch none [kEx] 0 parseUk2 reqUk2).outcome
      = .raised (.PyJWKClientError "Unable to find a signing key that matches: k7") := rfl
  rw [h0] at h
  simp at h

/-- C7 (amended): for every rejection other than Expired that is an
InvalidTokenError (signature mismatch, audience mismatch, issuer mismatch,
malformed token), the 401 body is exactly error invalid_token with
error_description Token validation failed — the same body for any two such
failing tokens, carrying no detail of the failure — while the specific
reason is recorded in the warning-level log.  (Key-not-found instead raises
PyJWKClientError, which escapes dispatch, as the counterexample shows.) -/
theorem c7_generic_401_for_invalid_tokens (mw : Auth0Middleware)
    (client : Option PyJWKClient) (provider : List PyJWK) (now : Nat)
    (parse : String → Option JWTToken) (req : Request) (e : JwtError)
    (c1 : PyJWKClient) (n : Nat)
    (hm : ¬ req.method = "OPTIONS")
    (hb : strStartsWith (req.authorization.getD "") "Bearer " = true)
    (hv : tokenVerify client provider now (parse (strDrop (req.authorization.getD "") 7))
        mw.audience (issuerOf mw.domain) = (.Rejected e, c1, n))
    (he1 : ¬ e = .ExpiredSignatureError)
    (he2 : e.isInvalidTokenError = true) :
    mw.dispatch client provider now parse req =
      { outcome := .response
          { status := 401
            body := [("error", "invalid_token"),
                     ("error_description", "Token validation failed")]
            headers := [("WWW-Authenticate",
              "Bearer realm=\"" ++ mw.audience ++ "\", error=\"invalid_token\"")] }
        warnings := ["Token validation failed: " ++ e.describe]
        client := some c1, fetches := n } := by
  rw [dispatch_char mw client provider now parse req hm hb, hv]
  exact dispatchExcept_invalid mw e c1 n he1 he2

/-- Witness for c7_generic_401_for_invalid_tokens: the correctly signed,
unexpired token tAudBad whose audience list does not contain svc. -/
theorem c7_generic_401_for_invalid_tokens_witness :
    mwEx.dispatch none [kEx] 0 parseAudBad reqAudBad =
      { outcome := .response
          { status := 401
            body := [("error", "invalid_token"),
                     ("error_description", "Token validation failed")]
            headers := [("WWW-Authenticate",
              "Bearer realm=\"svc\", error=\"invalid_token\"")] }
        warnings := ["Token validation failed: " ++ JwtError.describe .InvalidAudienceError]
        client := some cEx1, fetches := 1 } :=
  c7_generic_401_for_invalid_tokens mwEx none [kEx] 0 parseAudBad reqAudBad
    .InvalidAudienceError cEx1 1 (by decide) (by decide) rfl (by decide) rfl

/-- C8 (code bug): with full configuration create_app does mount the
metadata router at the root (served without any token) and the MCP app at
/mcp behind Auth0Middleware; but the root mount fully matches every request
path under the first-match mount routing of Starlette, so a request to /mcp
— even one carrying a token that would authenticate — is answered 404 by
the metadata router, and no request at all can reach tool invocation. -/
theorem c8_root_mount_shadows_mcp :
    (create_app cfgFull).routes =
      [{ path := "/"
         app := .metadataRouter "svc" ["https://idp.test"]
           ["openid", "profile", "email"] "PCO Services MCP Server"
         auth := none },
       { path := "/mcp", app := .mcpApp
         auth := some { domain := "idp.test", audience := "svc" } }]
    ∧ routeApp (create_app cfgFull) none [] 0 parseNone reqWellKnown
        = .handled
            { status := 200
              body := [("resource", "svc"),
                       ("authorization_servers", "https://idp.test"),
                       ("scopes_supported", "openid,profile,email"),
                       ("resource_name", "PCO Services MCP Server")]
              headers := [] }
    ∧ routeApp (create_app cfgFull) none [kEx] 0 parseEx reqEx
        = .handled notFoundResponse
    ∧ (∀ (req : Request) (client : Option PyJWKClient) (provider : List PyJWK)
         (now : Nat) (parse : String → Option JWTToken) (r : Request)
         (u : Option JWTPayload),
        routeApp (create_app cfgFull) client provider now parse req
          ≠ .toolInvocation r u) := by
  have hroutes : (create_app cfgFull).routes =
      [{ path := "/"
         app := .metadataRouter "svc" ["https://idp.test"]
           ["openid", "profile", "email"] "PCO Services MCP Server"
         auth := none },
       { path := "/mcp", app := .mcpApp
         auth := some { domain := "idp.test", audience := "svc" } }] := rfl
  refine ⟨hroutes, rfl, rfl, ?_⟩
  intro req client provider now parse r u
  unfold routeApp
  rw [hroutes]
  cases hs : strStartsWith req.path "/" with
  | true =>
    have hm1 : mountMatches "/" req.path = true := hs
    simp only [List.find?, hm1]
    simp [runMounted]
  | false =>
    have hm1 : mountMatches "/" req.path = false := hs
    have hm2 : mountMatches "/mcp" req.path = false := by
      have h1 : List.isPrefixOf "/".toList req.path.toList = false := hs
      exact @isPrefixOf_cons_false '/' "mcp/".toList req.path.toList h1
    simp only [List.find?, hm1, hm2]
    simp

/-- C9: with any of domain, audience or base URL unset or empty, create_app
mounts only the MCP tool app with no auth middleware — every request under
the /mcp mount reaches tool invocation with no claims attached and no
Authorization header required — and the prominent warning is logged. -/
theorem c9_unconfigured_runs_open (cfg : Config)
    (h : truthy cfg.auth0_domain = false ∨ truthy cfg.auth0_audience = false
         ∨ truthy cfg.base_url = false) :
    (create_app cfg).routes = [{ path := "/mcp", app := .mcpApp, auth := none }]
    ∧ (create_app cfg).warnings
        = ["Auth0 not configured - running without authentication"]
    ∧ ∀ (req : Request) (client : Option PyJWKClient) (provider : List PyJWK)
        (now : Nat) (parse : String → Option JWTToken),
        mountMatches "/mcp" req.path = true →
        routeApp (create_app cfg) client provider now parse req
          = .toolInvocation req none := by
  have hc : (truthy cfg.auth0_domain && truthy cfg.auth0_audience
      && truthy cfg.base_url) = false := by
    rcases h with h | h | h <;> simp [h]
  have happ : create_app cfg =
      { routes := [{ path := "/mcp", app := .mcpApp, auth := none }]
        warnings := ["Auth0 not configured - running without authentication"]
        infos := [] } := by
    unfold create_app
    rw [if_pos (by simp [hc])]
  refine ⟨by rw [happ], by rw [happ], ?_⟩
  intro req client provider now parse hmt
  rw [happ]
  unfold routeApp
  simp only [List.find?, hmt]
  simp [runMounted]

/-- Witness for c9_unconfigured_runs_open: with the domain unset, a POST to
/mcp/ without any Authorization header reaches tool invocation. -/
theorem c9_unconfigured_runs_open_witness :
    routeApp (create_app cfgOpen) none [] 0 parseNone reqNoAuth
      = .toolInvocation reqNoAuth none :=
  (c9_unconfigured_runs_open cfgOpen (Or.inl rfl)).2.2 reqNoAuth none [] 0 parseNone
    (by decide)

end PcoMcp
